import Mathlib

/-!
Verification of the configuration-derivation logic of
`storm_surge/square_basin/setrun.py` (Clawpack/GeoClaw run setup).

The Python module derives, from a handful of human-meaningful inputs
(simulated hours, output cadence, storm parameters, gauge placement
policy), a run configuration (`setrun` / `setgeo`) and an independent
storm configuration (`set_storm`).  We embed those derivations shallowly:
floats become exact rationals, Python `int()` becomes truncation toward
zero, `np.ceil` becomes the integer ceiling, and the fail-fast package
assertion becomes an `Except` value.
-/

namespace SquareBasin

/-- Module-level ramp-up constant: `RAMP_UP_TIME = 12 * 60**2` (seconds). -/
def RAMP_UP_TIME : ℚ := 12 * 60 ^ 2

/-- Python `int()` applied to a (real-valued) rational: truncation toward
zero, i.e. floor for non-negative arguments and ceiling for negative ones. -/
def pyInt (q : ℚ) : ℤ := if 0 ≤ q then ⌊q⌋ else ⌈q⌉

/-- Style-1 output frame count, from
`clawdata.nout = int(num_hours / step) + int(np.ceil(RAMP_UP_TIME / (step*60**2)))`,
parameterized by the number of simulated hours, the output cadence `step`
(fraction of an hour between outputs) and the ramp-up duration in seconds. -/
def noutStyle1 (numHours step ramp : ℚ) : ℤ :=
  pyInt (numHours / step) + ⌈ramp / (step * 60 ^ 2)⌉

/-- Style-1 final time, from `clawdata.tfinal = num_hours * 60.0**2`. -/
def tfinalStyle1 (numHours : ℚ) : ℚ := numHours * 60 ^ 2

/-- `num_hours = 40`: number of hours to simulate. -/
def num_hours : ℚ := 40

/-- `step = 0.25`: output interval as a fraction of an hour. -/
def step : ℚ := 0.25

/-- Spec-level error taxonomy for configuration derivation.  The source
module itself never raises such an error: no invariant check appears in
the Python code of this file. -/
inductive ConfigurationError
  | lengthMismatch
  | nonAscendingOutputTimes
  deriving DecidableEq

/-- Error produced by the entry point's package assertion
(`assert claw_pkg.lower() == 'geoclaw'`). -/
inductive SetrunError
  | unsupportedPackage
  deriving DecidableEq

/-- Style-2 output branch (source lines 122-131): the output-time list is
taken as given and `clawdata.nout = len(clawdata.tout)`.  The source
performs no validation of the list, so the derivation always succeeds;
it is parameterized here by the output-time list standing in the source
as the literal `[0.0,1.0,2.0,3.0,4.0]`. -/
def setOutputStyle2 (tout : List ℚ) : Except ConfigurationError (List ℚ × ℕ) :=
  .ok (tout, tout.length)

/-- The concrete style-2 output-time list of the source,
`clawdata.tout = [0.0,1.0,2.0,3.0,4.0]`. -/
def tout_code : List ℚ := [0.0, 1.0, 2.0, 3.0, 4.0]

/-- A list is strictly ascending when each element is smaller than its
successor. -/
def StrictlyAscending (l : List ℚ) : Prop := l.Chain' (· < ·)

/-- One gauge record: the source appends `[gaugeno, x, y, t1, t2]`. -/
structure Gauge where
  gaugeno : ℕ
  x : ℚ
  y : ℚ
  t1 : ℚ
  t2 : ℚ
  deriving DecidableEq

/-- `N_gauges = 21`. -/
def N_gauges : ℕ := 21

/-- Cross-shore gauge coordinate: `x = 455e3` (where the shelf meets the
beach). -/
def gauge_x : ℚ := 455e3

/-- Along-shore gauge coordinate for gauge `i` of `N`:
`y = 550e3 / (N_gauges + 1) * (i+1) + -275e3`. -/
def gaugeY (N i : ℕ) : ℚ := 550e3 / ((N : ℚ) + 1) * ((i : ℚ) + 1) + -275e3

/-- The gauge list built by the source loop
`for i in xrange(0, N_gauges): geodata.gauges.append([i, x, y, 0.0, 1e10])`. -/
def gauges (N : ℕ) : List Gauge :=
  (List.range N).map fun i => ⟨i, gauge_x, gaugeY N i, 0.0, 1e10⟩

/-- GeoClaw-specific configuration fields assigned by `setgeo`. -/
structure GeoData where
  variable_dt_refinement_ratios : Bool
  gravity : ℚ
  coordinate_system : ℤ
  earth_radius : ℚ
  coriolis_forcing : Bool
  theta_0 : ℚ
  dry_tolerance : ℚ
  wave_tolerance : ℚ
  speed_tolerance : List ℚ
  deep_depth : ℚ
  max_level_deep : ℤ
  friction_forcing : ℤ
  manning_coefficient : ℚ
  friction_depth : ℚ
  topofiles : List (List ℚ)
  topo_type : ℤ
  x0 : ℚ
  x1 : ℚ
  x2 : ℚ
  basin_depth : ℚ
  shelf_depth : ℚ
  beach_slope : ℚ
  dtopofiles : List (List ℚ)
  qinit_type : ℤ
  qinitfiles : List (List ℚ)
  regions : List (List ℚ)
  gauges : List Gauge
  fixedgrids : List (List ℚ)
  layers : ℤ
  rho : ℚ
  eta_init : ℚ
  richardson_tolerance : ℚ

/-- The geodata record produced by `setgeo` (source lines 267-348). -/
def setgeo : GeoData where
  variable_dt_refinement_ratios := true
  gravity := 9.81
  coordinate_system := 1
  earth_radius := 6367.5e3
  coriolis_forcing := true
  theta_0 := 45.0
  dry_tolerance := 1e-2
  wave_tolerance := 5e-1
  speed_tolerance := [0.25, 0.5, 1.0, 2.0, 3.0, 4.0]
  deep_depth := 2e2
  max_level_deep := 4
  friction_forcing := 1
  manning_coefficient := 0.025
  friction_depth := 1e6
  topofiles := []
  topo_type := 2
  x0 := 350e3
  x1 := 450e3
  x2 := 480e3
  basin_depth := -3000.0
  shelf_depth := -200.0
  beach_slope := 0.05
  dtopofiles := []
  qinit_type := 0
  qinitfiles := []
  regions := []
  gauges := gauges N_gauges
  fixedgrids := []
  layers := 1
  rho := 1025.0
  eta_init := 0.0
  richardson_tolerance := 0.95

/-- `clawdata.t0 = -RAMP_UP_TIME`, as a function of the module ramp-up
constant shared with the storm configurator. -/
def t0_of_ramp (ramp : ℚ) : ℚ := -ramp

/-- `data.ramp_up_t = RAMP_UP_TIME` in `set_storm`, as a function of the
same module ramp-up constant. -/
def ramp_up_t_of_ramp (ramp : ℚ) : ℚ := ramp

/-- The Clawpack numerics configuration fields assigned by `setrun`
(source lines 54-261), together with the constructor arguments of
`ClawRunData(claw_pkg, ndim)`. -/
structure ClawData where
  claw_pkg : String
  ndim : ℤ
  xlower : ℚ
  xupper : ℚ
  ylower : ℚ
  yupper : ℚ
  mx : ℤ
  my : ℤ
  meqn : ℤ
  maux : ℤ
  mcapa : ℤ
  t0 : ℚ
  outstyle : ℤ
  nout : ℤ
  tfinal : ℚ
  verbosity : ℤ
  dt_variable : ℤ
  dt_initial : ℚ
  dt_max : ℚ
  cfl_desired : ℚ
  cfl_max : ℚ
  max_steps : ℤ
  order : ℤ
  order_trans : ℤ
  mwaves : ℤ
  mthlim : List ℤ
  src_split : ℤ
  mbc : ℤ
  mthbc_xlower : ℤ
  mthbc_xupper : ℤ
  mthbc_ylower : ℤ
  mthbc_yupper : ℤ
  mxnest : ℤ
  inratx : List ℤ
  inraty : List ℤ
  inratt : List ℤ
  auxtype : List String
  tol : ℚ
  tolsp : ℚ
  cutoff : ℚ
  kcheck : ℤ
  ibuff : ℤ

/-- The clawdata record as populated by `setrun` for a given package
identifier (the identifier itself is only forwarded to the
`ClawRunData` constructor). -/
def clawdataOf (pkg : String) : ClawData where
  claw_pkg := pkg
  ndim := 2
  xlower := -200e3
  xupper := 500e3
  ylower := -300e3
  yupper := 300e3
  mx := 70
  my := 60
  meqn := 3
  maux := 9
  mcapa := 0
  t0 := t0_of_ramp RAMP_UP_TIME
  outstyle := 1
  nout := noutStyle1 num_hours step RAMP_UP_TIME
  tfinal := tfinalStyle1 num_hours
  verbosity := 2
  dt_variable := 1
  dt_initial := 0.016
  dt_max := 1e99
  cfl_desired := 0.75
  cfl_max := 1.0
  max_steps := 5000
  order := 2
  order_trans := 2
  mwaves := 3
  mthlim := [3, 3, 3]
  src_split := 1
  mbc := 2
  mthbc_xlower := 1
  mthbc_xupper := 1
  mthbc_ylower := 1
  mthbc_yupper := 1
  mxnest := -5
  inratx := [2, 2, 2, 2, 2]
  inraty := [2, 2, 2, 2, 2]
  inratt := [2, 2, 2, 2, 2]
  auxtype := ["center", "center", "center", "center", "center", "center",
              "center", "center", "center"]
  tol := -1.0
  tolsp := 0.5
  cutoff := 0.7
  kcheck := 3
  ibuff := 2

/-- The full run-configuration object returned by `setrun`: the clawdata
block plus the geodata block installed by `setgeo`. -/
structure RunData where
  clawdata : ClawData
  geodata : GeoData

/-- The run configuration built once the package assertion has passed. -/
def mkRundata (pkg : String) : RunData where
  clawdata := clawdataOf pkg
  geodata := setgeo

/-- Python `str.lower()`, modelled as character-wise ASCII lowercasing
(the package identifiers involved are ASCII). -/
def pyLower (s : String) : String := ⟨s.data.map Char.toLower⟩

/-- Entry point `setrun(claw_pkg='geoclaw')`: asserts
`claw_pkg.lower() == 'geoclaw'` before any derivation, then builds the
run configuration. -/
def setrun (claw_pkg : String) : Except SetrunError RunData :=
  if pyLower claw_pkg = "geoclaw" then .ok (mkRundata claw_pkg)
  else .error .unsupportedPackage

/-- Replace the stored package identifier of a run configuration. -/
def setPkg (rd : RunData) (pkg : String) : RunData :=
  { rd with clawdata := { rd.clawdata with claw_pkg := pkg } }

/-- Millibar-to-pascal conversion applied by `set_storm`:
`data.Pc = 950.0 * 1e2` ("Have to convert this to Pa instead of
millibars"). -/
def mbToPa (p : ℚ) : ℚ := p * 1e2

/-- The storm configuration object built by `set_storm`.  The velocity
vector is real-valued because the source computes it with `np.cos` /
`np.sin`. -/
structure StormData where
  rho_air : ℚ
  ambient_pressure : ℚ
  wind_forcing : Bool
  pressure_forcing : Bool
  wind_tolerance : ℚ
  pressure_tolerance : ℚ
  wind_refine : List ℚ
  R_refine : List ℚ
  storm_type : ℤ
  ramp_up_t : ℚ
  velocity : ℝ × ℝ
  R_eye_init : ℚ × ℚ
  A : ℚ
  B : ℚ
  Pc : ℚ

/-- The storm configuration of `set_storm` (source lines 352-388),
parameterized by the two AMR refinement-threshold lists that the source
assigns as the literals `[20.0,40.0,60.0]` and `[60.0e3,40e3,20e3]`.
The source performs no validation of these lists (in particular no
length comparison), so the derivation always succeeds. -/
noncomputable def mkStormData (wind_refine R_refine : List ℚ) : StormData where
  rho_air := 1.15
  ambient_pressure := 101.5e3
  wind_forcing := true
  pressure_forcing := true
  wind_tolerance := 1e-6
  pressure_tolerance := 1e-4
  wind_refine := wind_refine
  R_refine := R_refine
  storm_type := 2
  ramp_up_t := ramp_up_t_of_ramp RAMP_UP_TIME
  velocity := (5.0 * Real.cos 0.0, 5.0 * Real.sin 0.0)
  R_eye_init := (0.0, 0.0)
  A := 23.0
  B := 1.5
  Pc := mbToPa 950.0

/-- `set_storm()` with the source's concrete refinement lists. -/
noncomputable def set_storm : StormData :=
  mkStormData [20.0, 40.0, 60.0] [60.0e3, 40e3, 20e3]

/-- The storm derivation viewed as a fallible computation, as the spec's
error taxonomy describes it: the source contains no check, so every pair
of refinement lists yields a successful result. -/
noncomputable def set_stormChecked (wind_refine R_refine : List ℚ) :
    Except ConfigurationError StormData :=
  .ok (mkStormData wind_refine R_refine)

/-! ## Theorems -/

/-- Claim C1: for output style 1, the configurator sets the output frame
count to `floor(simulated_hours / cadence) + ceil(ramp_up_duration /
(cadence * 3600))` and the final time to `simulated_hours * 3600`, for
every positive `simulated_hours`, positive `cadence`, and non-negative
`ramp_up_duration`. -/
theorem noutStyle1_spec (h c r : ℚ) (hh : 0 < h) (hc : 0 < c) (hr : 0 ≤ r) :
    noutStyle1 h c r = ⌊h / c⌋ + ⌈r / (c * 3600)⌉ ∧ tfinalStyle1 h = h * 3600 := by
  constructor
  · unfold noutStyle1 pyInt
    rw [if_pos (div_pos hh hc).le]
    norm_num
  · unfold tfinalStyle1
    norm_num

/-- Witness for C1: the theorem applied at the source's concrete inputs
`num_hours = 40`, `step = 0.25`, `RAMP_UP_TIME = 43200`. -/
theorem noutStyle1_spec_witness :
    (0 : ℚ) < 40 ∧ (0 : ℚ) < 0.25 ∧ (0 : ℚ) ≤ 43200 ∧
      (noutStyle1 40 0.25 43200 = ⌊(40 : ℚ) / 0.25⌋ + ⌈(43200 : ℚ) / (0.25 * 3600)⌉ ∧
        tfinalStyle1 40 = 40 * 3600) :=
  ⟨by norm_num, by norm_num, by norm_num,
    noutStyle1_spec 40 0.25 43200 (by norm_num) (by norm_num) (by norm_num)⟩

/-- Counterexample to claim C2: at `simulated_hours = 40`,
`cadence = 0.25`, `ramp_up_duration = 43200` s the style-1 computation
does not produce `frame_count = 161`: the ramp-up term is
`ceil(43200 / 900) = 48`, not `1`. -/
theorem noutStyle1_concrete_not_161 :
    ¬ (noutStyle1 40 0.25 43200 = 161 ∧ tfinalStyle1 40 = 144000) := by
  intro hcl
  have h1 := hcl.1
  rw [show noutStyle1 40 0.25 43200 = 208 by norm_num [noutStyle1, pyInt]] at h1
  exact absurd h1 (by decide)

/-- Claim C2 (amended): with `simulated_hours = 40`, `cadence = 0.25` and
`ramp_up_duration = 43200` s, the style-1 computation produces
`frame_count = 160 + 48 = 208` and `final_time = 144000`, and those are
the values stored in the derived configuration. -/
theorem noutStyle1_concrete :
    noutStyle1 40 0.25 43200 = 208 ∧ tfinalStyle1 40 = 144000 ∧
      (mkRundata "geoclaw").clawdata.nout = 208 ∧
      (mkRundata "geoclaw").clawdata.tfinal = 144000 := by
  refine ⟨by norm_num [noutStyle1, pyInt], by norm_num [tfinalStyle1], ?_, ?_⟩
  · norm_num [mkRundata, clawdataOf, noutStyle1, pyInt, num_hours, step, RAMP_UP_TIME]
  · norm_num [mkRundata, clawdataOf, tfinalStyle1, num_hours]

/-- Claim C4: the numerics configurator's `t0` and the storm
configurator's `ramp_up_t` are both derived from the single module
constant `RAMP_UP_TIME`, and for every value of that constant they
satisfy `start_time == -ramp_up_t`; in particular the two concrete
configuration objects agree this way. -/
theorem t0_eq_neg_ramp_up_t :
    (∀ ramp : ℚ, t0_of_ramp ramp = -(ramp_up_t_of_ramp ramp)) ∧
      (mkRundata "geoclaw").clawdata.t0 = -(set_storm.ramp_up_t) := by
  exact ⟨fun ramp => rfl, rfl⟩

/-- Claim C7: the storm configurator converts central pressure from
millibars to pascals by multiplying by 100; in particular the source's
central pressure of `950.0` millibars is stored as `95000.0` pascals. -/
theorem mbToPa_spec :
    (∀ p : ℚ, mbToPa p = p * 100) ∧ set_storm.Pc = mbToPa 950 ∧ set_storm.Pc = 95000 := by
  refine ⟨fun p => by norm_num [mbToPa], by norm_num [set_storm, mkStormData],
    by norm_num [set_storm, mkStormData, mbToPa]⟩

/-- Claim C3: for every gauge count `N ≥ 1` the placement computation
produces exactly `N` gauge records; gauge `i` has
`y_i = (y_max - y_min) / (N+1) * (i+1) + y_min` with `y_min = -275000`
and `y_max = 275000`, lies strictly inside `(y_min, y_max)`, the
y-coordinates are strictly increasing in the index and evenly spaced
with spacing `(y_max - y_min) / (N+1)`; for `N = 21` gauge `0` sits at
`y = -250000`; and every gauge's observation window starts at `0` with
the effectively unbounded end time `1e10`. -/
theorem gauges_spec (N i j : ℕ) (hN : 1 ≤ N) (hi : i < N) (hij : i < j) (hj : j < N) :
    (gauges N).length = N ∧
      (gauges N)[i]? = some ⟨i, gauge_x, gaugeY N i, 0, 1e10⟩ ∧
      gaugeY N i = (275000 - -275000) / ((N : ℚ) + 1) * ((i : ℚ) + 1) + -275000 ∧
      -275000 < gaugeY N i ∧ gaugeY N i < 275000 ∧
      gaugeY N i < gaugeY N j ∧
      gaugeY N (i + 1) - gaugeY N i = (275000 - -275000) / ((N : ℚ) + 1) ∧
      gaugeY 21 0 = -250000 := by
  have hN1 : (0 : ℚ) < (N : ℚ) + 1 := by positivity
  have hne : ((N : ℚ) + 1) ≠ 0 := ne_of_gt hN1
  have e : ∀ k : ℕ, gaugeY N k = 550000 / ((N : ℚ) + 1) * ((k : ℚ) + 1) + -275000 := by
    intro k
    norm_num [gaugeY]
  have hiN : ((i : ℚ) + 1) ≤ (N : ℚ) := by exact_mod_cast Nat.succ_le_of_lt hi
  have hpos : (0 : ℚ) < 550000 / ((N : ℚ) + 1) * ((i : ℚ) + 1) := by positivity
  refine ⟨by simp [gauges], ?_, ?_, ?_, ?_, ?_, ?_, ?_⟩
  · simp [gauges, List.getElem?_map, List.getElem?_range, hi]
    norm_num
  · rw [e i]
    norm_num
  · rw [e i]
    linarith [hpos]
  · rw [e i]
    have h2 : 550000 / ((N : ℚ) + 1) * ((i : ℚ) + 1) < 550000 := by
      rw [div_mul_eq_mul_div, div_lt_iff hN1]
      linarith [hiN]
    linarith [h2]
  · rw [e i, e j]
    have hcoef : (0 : ℚ) < 550000 / ((N : ℚ) + 1) := by positivity
    have hijQ : ((i : ℚ) + 1) < ((j : ℚ) + 1) := by
      have : (i : ℚ) < (j : ℚ) := by exact_mod_cast hij
      linarith
    have := mul_lt_mul_of_pos_left hijQ hcoef
    linarith [this]
  · rw [e i, e (i + 1)]
    push_cast
    field_simp
    ring
  · norm_num [gaugeY]

/-- Witness for C3: the gauge-placement theorem at the source's concrete
`N_gauges = 21`, gauge indices `0 < 1`. -/
theorem gauges_spec_witness :
    1 ≤ 21 ∧ 0 < 21 ∧ 0 < 1 ∧ 1 < 21 ∧
      ((gauges 21).length = 21 ∧
        (gauges 21)[0]? = some ⟨0, gauge_x, gaugeY 21 0, 0, 1e10⟩ ∧
        gaugeY 21 0 = (275000 - -275000) / ((21 : ℕ) + 1 : ℚ) * ((0 : ℕ) + 1 : ℚ) + -275000 ∧
        -275000 < gaugeY 21 0 ∧ gaugeY 21 0 < 275000 ∧
        gaugeY 21 0 < gaugeY 21 1 ∧
        gaugeY 21 (0 + 1) - gaugeY 21 0 = (275000 - -275000) / ((21 : ℕ) + 1 : ℚ) ∧
        gaugeY 21 0 = -250000) :=
  ⟨by decide, by decide, by decide, by decide,
    gauges_spec 21 0 1 (by decide) (by decide) (by decide) (by decide)⟩

/-- Claim C9: for output style 1 with the cadence held fixed, the frame
count is monotonically non-decreasing in `simulated_hours` and in
`ramp_up_duration`: increasing either input (the other held fixed) never
decreases it. -/
theorem noutStyle1_monotone (h h' c r r' : ℚ) (hc : 0 < c) (hh : 0 < h)
    (hr : 0 ≤ r) (hhh : h ≤ h') (hrr : r ≤ r') :
    noutStyle1 h c r ≤ noutStyle1 h' c r ∧ noutStyle1 h c r ≤ noutStyle1 h c r' := by
  have hd : 0 ≤ h / c := (div_pos hh hc).le
  have hd' : 0 ≤ h' / c := (div_pos (lt_of_lt_of_le hh hhh) hc).le
  have hc2 : (0 : ℚ) < c * 60 ^ 2 := by positivity
  constructor
  · unfold noutStyle1 pyInt
    rw [if_pos hd, if_pos hd']
    have hdiv : h / c ≤ h' / c := by gcongr
    exact add_le_add (Int.floor_le_floor hdiv) le_rfl
  · unfold noutStyle1 pyInt
    rw [if_pos hd]
    have hdiv : r / (c * 60 ^ 2) ≤ r' / (c * 60 ^ 2) := by gcongr
    exact add_le_add le_rfl (Int.ceil_le_ceil hdiv)

/-- Witness for C9: monotonicity at hours `40 ≤ 41` and ramp-up
`0 ≤ 3600`, cadence `0.25`. -/
theorem noutStyle1_monotone_witness :
    (0 : ℚ) < 0.25 ∧ (0 : ℚ) < 40 ∧ (0 : ℚ) ≤ 0 ∧ (40 : ℚ) ≤ 41 ∧ (0 : ℚ) ≤ 3600 ∧
      (noutStyle1 40 0.25 0 ≤ noutStyle1 41 0.25 0 ∧
        noutStyle1 40 0.25 0 ≤ noutStyle1 40 0.25 3600) :=
  ⟨by norm_num, by norm_num, le_rfl, by norm_num, by norm_num,
    noutStyle1_monotone 40 41 0.25 0 3600 (by norm_num) (by norm_num) le_rfl
      (by norm_num) (by norm_num)⟩

/-- Counterexample to claim C5: the list `[1, 0]` of output times is not
strictly ascending, yet the style-2 derivation succeeds (the source
performs no ascending-order validation and raises no
`ConfigurationError`). -/
theorem setOutputStyle2_cex :
    ¬ StrictlyAscending [1, 0] ∧ setOutputStyle2 [1, 0] = .ok ([1, 0], 2) := by
  constructor
  · intro hasc
    simp only [StrictlyAscending, List.chain'_cons, List.chain'_singleton, and_true] at hasc
    norm_num at hasc
  · rfl

/-- Claim C5 (amended): for output style 2 the frame count equals the
length of the supplied output-time sequence; the module performs no
ascending-order validation, so derivation succeeds for every sequence.
With the source's concrete list `[0.0, 1.0, 2.0, 3.0, 4.0]` the frame
count is `5`. -/
theorem setOutputStyle2_spec :
    (∀ tout : List ℚ, setOutputStyle2 tout = .ok (tout, tout.length)) ∧
      setOutputStyle2 tout_code = .ok (tout_code, 5) :=
  ⟨fun _ => rfl, rfl⟩

/-- Counterexample to claim C8: the lists `[20.0]` and `[60000, 40000]`
have different lengths, yet the storm derivation succeeds: the source
contains no length comparison between `wind_refine` and `R_refine` and
raises no `ConfigurationError`. -/
theorem set_storm_cex :
    ([20.0] : List ℚ).length ≠ ([60.0e3, 40e3] : List ℚ).length ∧
      (set_stormChecked [20.0] [60.0e3, 40e3]).isOk = true :=
  ⟨by decide, rfl⟩

/-- Claim C8 (amended): the storm configurator assigns the wind and
radius refinement-threshold lists without validating their lengths, so
derivation succeeds for every pair of lists; the source's concrete lists
happen to have equal length `3`. -/
theorem set_storm_refine_lengths :
    (∀ w r : List ℚ, (set_stormChecked w r).isOk = true) ∧
      set_storm.wind_refine.length = set_storm.R_refine.length :=
  ⟨fun _ _ => rfl, rfl⟩

/-- Counterexample to claim C6: the input `"GEOCLAW"` does not equal the
supported identifier `"geoclaw"`, yet the entry point accepts it (the
assertion lowercases the selector first), so not every non-equal input
fails fast. -/
theorem setrun_cex :
    "GEOCLAW" ≠ "geoclaw" ∧ (setrun "GEOCLAW").isOk = true := by
  exact ⟨by decide, rfl⟩

/-- Claim C6 (amended): for every package identifier whose lowercasing
differs from `"geoclaw"`, the entry point fails fast with the
unsupported-package error before any configuration derivation, and no
configuration object is produced. -/
theorem setrun_rejects (s : String) (hs : pyLower s ≠ "geoclaw") :
    setrun s = .error .unsupportedPackage := by
  unfold setrun
  rw [if_neg hs]

/-- Witness for C6 (amended): the identifier `"pyclaw"` is rejected. -/
theorem setrun_rejects_witness :
    pyLower "pyclaw" ≠ "geoclaw" ∧ setrun "pyclaw" = .error .unsupportedPackage :=
  ⟨by decide, setrun_rejects "pyclaw" (by decide)⟩

/-- Counterexample to claim C10: the capitalization variant `"GEOCLAW"`
is accepted but does not yield the same configuration object as the
lowercase identifier: the configuration stores the selector as given
(`ClawRunData(claw_pkg, ndim)` receives the original string). -/
theorem setrun_case_cex :
    pyLower "GEOCLAW" = "geoclaw" ∧ setrun "GEOCLAW" ≠ setrun "geoclaw" := by
  refine ⟨by decide, ?_⟩
  intro hEq
  have e1 : setrun "GEOCLAW" = .ok (mkRundata "GEOCLAW") := by
    unfold setrun
    rw [if_pos (by decide)]
  have e2 : setrun "geoclaw" = .ok (mkRundata "geoclaw") := by
    unfold setrun
    rw [if_pos (by decide)]
  rw [e1, e2] at hEq
  have h3 : mkRundata "GEOCLAW" = mkRundata "geoclaw" := by
    injection hEq
  have h4 := congrArg (fun rd => rd.clawdata.claw_pkg) h3
  exact (by decide : ("GEOCLAW" : String) ≠ "geoclaw") h4

/-- Claim C10 (amended): the package comparison is case-insensitive:
every selector whose lowercasing equals `"geoclaw"` is accepted, and the
resulting configuration agrees with the one for the lowercase identifier
on every field except the stored selector itself, which keeps its
original capitalization. -/
theorem setrun_case_insensitive (s : String) (hs : pyLower s = "geoclaw") :
    setrun s = .ok (mkRundata s) ∧ setPkg (mkRundata s) "geoclaw" = mkRundata "geoclaw" := by
  constructor
  · unfold setrun
    rw [if_pos hs]
  · rfl

/-- Witness for C10 (amended): the variant `"GeoClaw"` is accepted and
matches the lowercase configuration up to the stored selector. -/
theorem setrun_case_insensitive_witness :
    pyLower "GeoClaw" = "geoclaw" ∧
      (setrun "GeoClaw" = .ok (mkRundata "GeoClaw") ∧
        setPkg (mkRundata "GeoClaw") "geoclaw" = mkRundata "geoclaw") :=
  ⟨by decide, setrun_case_insensitive "GeoClaw" (by decide)⟩

end SquareBasin
